import Mathlib

/-!
Verification of the slope-derivation kernel of `src/prepare_data.py`
(`compute_slope_and_classes`): no-data mask construction, finite-difference
gradients via `np.gradient`, slope angle in degrees, and threshold
classification via `np.digitize`.

Modelling conventions:
* Finite IEEE floats are modelled as exact rationals `ℚ`; the transcendental
  slope formula (`np.arctan`, `np.sqrt`, `np.degrees`) is modelled over `ℝ`.
* A float that may be NaN (the no-data sentinel and the raw DEM cells in the
  mask-building stage, lines 50-56) is modelled by `PyF` below.
* A 2D numpy array of shape (R, C) is a function `ℕ → ℕ → α` together with the
  explicit bounds R, C.
* `np.gradient` raising `ValueError` (an axis with fewer than 2 samples) and a
  NaN cell in the slope grid are modelled with `Option`.
-/

namespace PrepareData

/-- A Python float as it matters to the mask-building stage: either NaN or a
finite value (modelled exactly as a rational). -/
inductive PyF where
  | nan : PyF
  | val : ℚ → PyF
deriving DecidableEq

/-- IEEE `==` on floats: NaN compares unequal to everything, itself included;
finite values compare by value. Models the numpy elementwise `dem == nodata`
comparison on line 53. -/
def pyEq : PyF → PyF → Bool
  | PyF.val a, PyF.val b => a = b
  | _, _ => false

/-- `np.isnan` on one cell (line 56). -/
def pyIsNan : PyF → Bool
  | PyF.nan => true
  | PyF.val _ => false

/-- Lines 51-56: the no-data mask. If a nodata sentinel is present in the
profile, `mask = dem == nodata` (elementwise IEEE equality); otherwise
`mask = np.isnan(dem)`. -/
def buildMask (dem : ℕ → ℕ → PyF) (nodata : Option PyF) : ℕ → ℕ → Bool :=
  match nodata with
  | some v => fun r c => pyEq (dem r c) v
  | none => fun r c => pyIsNan (dem r c)

/-- One axis of `np.gradient` with uniform spacing `h` over `n` samples
(default `edge_order=1`): forward difference at index 0, backward difference at
index `n-1`, centered difference `(f (i+1) - f (i-1)) / (2h)` at interior
indices. -/
def grad1 (n : ℕ) (h : ℚ) (f : ℕ → ℚ) (i : ℕ) : ℚ :=
  if i = 0 then (f 1 - f 0) / h
  else if i = n - 1 then (f (n - 1) - f (n - 2)) / h
  else (f (i + 1) - f (i - 1)) / (2 * h)

/-- Line 71: `gy, gx = np.gradient(dem, yres, xres)` for a 2D array of shape
(R, C). `np.gradient` raises `ValueError` when a differentiated axis has fewer
than `edge_order + 1 = 2` samples; that failure is the `none` case. -/
def npGradient2D (R C : ℕ) (yres xres : ℚ) (E : ℕ → ℕ → ℚ) :
    Option ((ℕ → ℕ → ℚ) × (ℕ → ℕ → ℚ)) :=
  if 2 ≤ R ∧ 2 ≤ C then
    some (fun r c => grad1 R yres (fun i => E i c) r,
          fun r c => grad1 C xres (fun j => E r j) c)
  else none

/-- Lines 74-75: `np.degrees(np.arctan(np.sqrt(gx**2 + gy**2)))` at one cell. -/
noncomputable def slopeDegOf (gx gy : ℚ) : ℝ :=
  Real.arctan (Real.sqrt ((gx : ℝ) ^ 2 + (gy : ℝ) ^ 2)) * 180 / Real.pi

/-- Line 97: the slope class boundaries in degrees. -/
def CLASS_BINS : List ℚ := [5, 15, 30, 45]

open Classical in
/-- Line 112: `np.digitize(x, bins, right=False)` for monotonically increasing
`bins`: the index `i` with `bins[i-1] <= x < bins[i]`, i.e. the number of bin
boundaries that are `<= x` (numpy `searchsorted` with `side='right'`). -/
noncomputable def npDigitize (bins : List ℚ) (x : ℝ) : ℕ :=
  (bins.filter fun b => decide ((b : ℝ) ≤ x)).length

/-- The two output grids of the kernel: slope in degrees (`none` is the NaN
missing marker) and the uint8 class grid. -/
structure SlopeResult where
  slope : ℕ → ℕ → Option ℝ
  classes : ℕ → ℕ → ℕ

/-- Lines 63-115 of `compute_slope_and_classes`, the computation between mask
construction and raster writing. Arguments `ta`, `te` are the affine transform
entries `transform.a` and `transform.e`; the code uses their absolute values as
pixel sizes (lines 64-65). Then `gy, gx = np.gradient(dem, yres, xres)`
(line 71, `none` when it raises), the slope in degrees (lines 74-75), the NaN
overwrite of masked slope cells (line 78), `np.digitize` of the slope grid
(line 112; a NaN slope digitizes past the last bin, to index 4), and the final
`classes[mask] = 0` overwrite (line 115). -/
noncomputable def compute_slope_and_classes (R C : ℕ) (ta te : ℚ)
    (dem : ℕ → ℕ → ℚ) (mask : ℕ → ℕ → Bool) : Option SlopeResult :=
  let xres := |ta|
  let yres := |te|
  match npGradient2D R C yres xres dem with
  | none => none
  | some (gy, gx) =>
      let slope_deg : ℕ → ℕ → Option ℝ := fun r c =>
        if mask r c then none else some (slopeDegOf (gx r c) (gy r c))
      let classes : ℕ → ℕ → ℕ := fun r c =>
        if mask r c then 0
        else
          match slope_deg r c with
          | none => CLASS_BINS.length
          | some v => npDigitize CLASS_BINS v
      some ⟨slope_deg, classes⟩

/-- The slope value the pipeline reports at cell (r, c): `none` when the
pipeline failed or the cell is masked. -/
noncomputable def slopeAt (o : Option SlopeResult) (r c : ℕ) : Option ℝ :=
  match o with
  | none => none
  | some res => res.slope r c

/-- The class value the pipeline reports at cell (r, c), when it produced
output. -/
noncomputable def classAt (o : Option SlopeResult) (r c : ℕ) : Option ℕ :=
  match o with
  | none => none
  | some res => some (res.classes r c)

/-- The all-cells-valid mask. -/
def maskAllFalse : ℕ → ℕ → Bool := fun _ _ => false

/-- The 3x3 example grid of spec section 8, property 7: rows
`[0,0,0], [0,0,0], [10,10,10]`. -/
def demExample : ℕ → ℕ → ℚ := fun r _ => if r = 2 then 10 else 0

/-- A constant-zero elevation grid. -/
def demFlat : ℕ → ℕ → ℚ := fun _ _ => 0

/-- The all-cells-masked mask. -/
def maskAllTrue : ℕ → ℕ → Bool := fun _ _ => true

/-! ### Helper lemmas -/

lemma grad1_const (n : ℕ) (h k : ℚ) (f : ℕ → ℚ) (hf : ∀ i, f i = k) (i : ℕ) :
    grad1 n h f i = 0 := by
  unfold grad1
  split
  · simp [hf]
  · split <;> simp [hf]

lemma slopeDegOf_zero_zero : slopeDegOf 0 0 = 0 := by
  simp [slopeDegOf]

lemma slopeDegOf_zero_left (g : ℚ) :
    slopeDegOf 0 g = Real.arctan |(g : ℝ)| * 180 / Real.pi := by
  unfold slopeDegOf
  norm_num [Real.sqrt_sq_eq_abs]

lemma digitize_bins_eq_zero {x : ℝ} (h : x < 5) : npDigitize CLASS_BINS x = 0 := by
  have e5 : ¬ (5 : ℝ) ≤ x := not_le.mpr h
  have e15 : ¬ (15 : ℝ) ≤ x := not_le.mpr (by linarith)
  have e30 : ¬ (30 : ℝ) ≤ x := not_le.mpr (by linarith)
  have e45 : ¬ (45 : ℝ) ≤ x := not_le.mpr (by linarith)
  simp [npDigitize, CLASS_BINS, e5, e15, e30, e45]

lemma digitize_bins_eq_one {x : ℝ} (h1 : 5 ≤ x) (h2 : x < 15) :
    npDigitize CLASS_BINS x = 1 := by
  have e15 : ¬ (15 : ℝ) ≤ x := not_le.mpr h2
  have e30 : ¬ (30 : ℝ) ≤ x := not_le.mpr (by linarith)
  have e45 : ¬ (45 : ℝ) ≤ x := not_le.mpr (by linarith)
  simp [npDigitize, CLASS_BINS, h1, e15, e30, e45]

lemma digitize_bins_eq_two {x : ℝ} (h1 : 15 ≤ x) (h2 : x < 30) :
    npDigitize CLASS_BINS x = 2 := by
  have e5 : (5 : ℝ) ≤ x := by linarith
  have e30 : ¬ (30 : ℝ) ≤ x := not_le.mpr h2
  have e45 : ¬ (45 : ℝ) ≤ x := not_le.mpr (by linarith)
  simp [npDigitize, CLASS_BINS, h1, e5, e30, e45]

lemma digitize_bins_eq_three {x : ℝ} (h1 : 30 ≤ x) (h2 : x < 45) :
    npDigitize CLASS_BINS x = 3 := by
  have e5 : (5 : ℝ) ≤ x := by linarith
  have e15 : (15 : ℝ) ≤ x := by linarith
  have e45 : ¬ (45 : ℝ) ≤ x := not_le.mpr h2
  simp [npDigitize, CLASS_BINS, h1, e5, e15, e45]

lemma digitize_bins_eq_four {x : ℝ} (h : 45 ≤ x) : npDigitize CLASS_BINS x = 4 := by
  have e5 : (5 : ℝ) ≤ x := by linarith
  have e15 : (15 : ℝ) ≤ x := by linarith
  have e30 : (30 : ℝ) ≤ x := by linarith
  simp [npDigitize, CLASS_BINS, h, e5, e15, e30]

/-! ### Claim theorems -/

/-- C9: when the supplied no-data sentinel is NaN, the `dem == nodata`
comparison of line 53 yields an all-false mask (IEEE NaN compares unequal to
itself), so NaN no-data cells pass unmasked into the gradient and
classification stages; when a sentinel is supplied the mask is exactly the
sentinel-equality test, and the `np.isnan` test of line 56 is used only when no
sentinel is supplied. -/
theorem nan_sentinel_yields_all_false_mask :
    (∀ (dem : ℕ → ℕ → PyF) (r c : ℕ),
        buildMask dem (some PyF.nan) r c = false) ∧
    (∀ (dem : ℕ → ℕ → PyF) (v : PyF) (r c : ℕ),
        buildMask dem (some v) r c = pyEq (dem r c) v) ∧
    (∀ (dem : ℕ → ℕ → PyF) (r c : ℕ),
        buildMask dem none r c = pyIsNan (dem r c)) := by
  refine ⟨?_, ?_, ?_⟩
  · intro dem r c
    cases h : dem r c <;> simp [buildMask, pyEq]
  · intro dem v r c
    rfl
  · intro dem r c
    rfl

/-- C4 counterexample: a 1x5 grid is NOT processed without error — axis 0 has
fewer than 2 samples, so `np.gradient` raises `ValueError` and the computation
aborts (modelled as `none`). -/
theorem degenerate_1x5_grid_errors :
    compute_slope_and_classes 1 5 1 1 demFlat maskAllFalse = none := by
  rfl

/-- C4 amended: a grid with a single row or a single column is rejected by the
gradient computation (`np.gradient` needs at least 2 samples along each
differentiated axis) — the computation errors out instead of falling back to
one-sided differences. -/
theorem degenerate_grid_rejected (R C : ℕ) (ta te : ℚ) (E : ℕ → ℕ → ℚ)
    (mask : ℕ → ℕ → Bool) (h : R < 2 ∨ C < 2) :
    compute_slope_and_classes R C ta te E mask = none := by
  have hcond : ¬ (2 ≤ R ∧ 2 ≤ C) := by
    rcases h with h | h
    · exact fun hc => absurd hc.1 (by omega)
    · exact fun hc => absurd hc.2 (by omega)
  simp [compute_slope_and_classes, npGradient2D, hcond]

/-- Witness for the amended C4 theorem at the concrete 1x5 input. -/
theorem degenerate_grid_rejected_witness :
    (1 < 2 ∨ 5 < 2) ∧
      compute_slope_and_classes 1 5 1 1 demExample maskAllFalse = none :=
  ⟨Or.inl (by norm_num),
   degenerate_grid_rejected 1 5 1 1 demExample maskAllFalse (Or.inl (by norm_num))⟩

/-- C3: every cell marked invalid by the no-data mask gets the NaN missing
marker in the slope grid (line 78) and class 0 in the class grid (line 115),
regardless of the elevation stored there. -/
theorem mask_propagation (R C : ℕ) (ta te : ℚ) (E : ℕ → ℕ → ℚ)
    (mask : ℕ → ℕ → Bool) (r c : ℕ) (hR : 2 ≤ R) (hC : 2 ≤ C)
    (hm : mask r c = true) :
    slopeAt (compute_slope_and_classes R C ta te E mask) r c = none ∧
    classAt (compute_slope_and_classes R C ta te E mask) r c = some 0 := by
  have hcond : 2 ≤ R ∧ 2 ≤ C := ⟨hR, hC⟩
  simp [compute_slope_and_classes, npGradient2D, hcond, slopeAt, classAt, hm]

/-- Witness for C3 at a concrete fully-masked 2x2 grid. -/
theorem mask_propagation_witness :
    maskAllTrue 0 0 = true ∧
    slopeAt (compute_slope_and_classes 2 2 1 1 demExample maskAllTrue) 0 0 = none ∧
    classAt (compute_slope_and_classes 2 2 1 1 demExample maskAllTrue) 0 0 = some 0 := by
  refine ⟨rfl, ?_⟩
  exact mask_propagation 2 2 1 1 demExample maskAllTrue 0 0 (by norm_num) (by norm_num) rfl

/-- C5 counterexample: with spacing `transform.a = transform.e = -1 ≤ 0` the
computation does NOT abort with `InvalidSpacing`: it produces output (the code
takes absolute values of the transform entries on lines 64-65 and has no
spacing validation). -/
theorem negative_spacing_produces_output :
    compute_slope_and_classes 2 2 (-1) (-1) demFlat maskAllFalse ≠ none ∧
    slopeAt (compute_slope_and_classes 2 2 (-1) (-1) demFlat maskAllFalse) 0 0 =
      some 0 := by
  constructor
  · simp [compute_slope_and_classes, npGradient2D]
  · have h1 : grad1 2 1 (fun j => demFlat 0 j) 0 = 0 :=
      grad1_const 2 _ 0 _ (fun _ => rfl) 0
    have h2 : grad1 2 1 (fun i => demFlat i 0) 0 = 0 :=
      grad1_const 2 _ 0 _ (fun _ => rfl) 0
    simp [compute_slope_and_classes, npGradient2D, slopeAt, maskAllFalse,
      h1, h2, slopeDegOf_zero_zero]

/-- C5 amended: there is no `InvalidSpacing` check. The code passes the
transform entries through absolute value, so any spacings (including
non-positive ones) give the same result as their absolute values, and whenever
the grid has at least 2 rows and columns the computation produces output no
matter the sign of the spacing. -/
theorem no_invalid_spacing_check (R C : ℕ) (ta te : ℚ) (E : ℕ → ℕ → ℚ)
    (mask : ℕ → ℕ → Bool) :
    compute_slope_and_classes R C ta te E mask =
      compute_slope_and_classes R C |ta| |te| E mask ∧
    (2 ≤ R → 2 ≤ C →
      (compute_slope_and_classes R C ta te E mask).isSome = true) := by
  constructor
  · simp [compute_slope_and_classes, abs_abs]
  · intro hR hC
    have hcond : 2 ≤ R ∧ 2 ≤ C := ⟨hR, hC⟩
    simp [compute_slope_and_classes, npGradient2D, hcond]

/-- Witness for the amended C5 theorem at a concrete negative-spacing input. -/
theorem no_invalid_spacing_check_witness :
    2 ≤ 2 ∧
    (compute_slope_and_classes 2 2 (-1) (-1) demExample maskAllFalse =
      compute_slope_and_classes 2 2 |(-1 : ℚ)| |(-1 : ℚ)| demExample maskAllFalse) ∧
    (compute_slope_and_classes 2 2 (-1) (-1) demExample maskAllFalse).isSome = true := by
  refine ⟨by norm_num, ?_, ?_⟩
  · exact (no_invalid_spacing_check 2 2 (-1) (-1) demExample maskAllFalse).1
  · exact (no_invalid_spacing_check 2 2 (-1) (-1) demExample maskAllFalse).2
      (by norm_num) (by norm_num)

lemma slopeDegOf_nonneg (gx gy : ℚ) : 0 ≤ slopeDegOf gx gy := by
  unfold slopeDegOf
  have h0 : 0 ≤ Real.arctan (Real.sqrt ((gx : ℝ) ^ 2 + (gy : ℝ) ^ 2)) := by
    have h := Real.arctan_strictMono.monotone
      (Real.sqrt_nonneg ((gx : ℝ) ^ 2 + (gy : ℝ) ^ 2))
    rwa [Real.arctan_zero] at h
  exact div_nonneg (mul_nonneg h0 (by norm_num)) Real.pi_pos.le

lemma slopeDegOf_lt_ninety (gx gy : ℚ) : slopeDegOf gx gy < 90 := by
  unfold slopeDegOf
  rw [div_lt_iff₀ Real.pi_pos]
  have h := Real.arctan_lt_pi_div_two (Real.sqrt ((gx : ℝ) ^ 2 + (gy : ℝ) ^ 2))
  linarith

/-- C6: at every valid cell of any finite-elevation grid with positive
spacings, the computed slope lies in the half-open interval [0, 90) degrees
(the arctangent of a finite nonnegative gradient magnitude). -/
theorem slope_range_bound (R C : ℕ) (ta te : ℚ) (E : ℕ → ℕ → ℚ)
    (mask : ℕ → ℕ → Bool) (r c : ℕ) (v : ℝ) (hx : 0 < ta) (hy : 0 < te)
    (hv : slopeAt (compute_slope_and_classes R C ta te E mask) r c = some v) :
    0 ≤ v ∧ v < 90 := by
  by_cases hcond : 2 ≤ R ∧ 2 ≤ C
  · simp [compute_slope_and_classes, npGradient2D, hcond, slopeAt] at hv
    by_cases hm : mask r c
    · simp [hm] at hv
    · simp [hm] at hv
      rw [← hv]
      exact ⟨slopeDegOf_nonneg _ _, slopeDegOf_lt_ninety _ _⟩
  · simp [compute_slope_and_classes, npGradient2D, hcond, slopeAt] at hv

/-- Witness for C6 at a concrete flat 2x2 grid, where the slope is 0. -/
theorem slope_range_bound_witness :
    (0 : ℚ) < 1 ∧
    slopeAt (compute_slope_and_classes 2 2 1 1 demFlat maskAllFalse) 0 0 = some 0 ∧
    (0 ≤ (0 : ℝ) ∧ (0 : ℝ) < 90) := by
  have hs : slopeAt (compute_slope_and_classes 2 2 1 1 demFlat maskAllFalse) 0 0 =
      some 0 := by
    have h1 : grad1 2 1 (fun j => demFlat 0 j) 0 = 0 :=
      grad1_const 2 _ 0 _ (fun _ => rfl) 0
    have h2 : grad1 2 1 (fun i => demFlat i 0) 0 = 0 :=
      grad1_const 2 _ 0 _ (fun _ => rfl) 0
    simp [compute_slope_and_classes, npGradient2D, slopeAt, maskAllFalse,
      h1, h2, slopeDegOf_zero_zero]
  exact ⟨by norm_num, hs,
    slope_range_bound 2 2 1 1 demFlat maskAllFalse 0 0 0 (by norm_num) (by norm_num) hs⟩

/-- C7: on a constant-elevation grid every finite difference vanishes, so every
valid cell has computed slope exactly 0 degrees and class 0. -/
theorem flat_grid_slope_and_class_zero (R C : ℕ) (ta te : ℚ) (E : ℕ → ℕ → ℚ)
    (k : ℚ) (mask : ℕ → ℕ → Bool) (r c : ℕ)
    (hE : ∀ i j, E i j = k) (hx : 0 < ta) (hy : 0 < te)
    (hR : 2 ≤ R) (hC : 2 ≤ C) (hm : mask r c = false) :
    slopeAt (compute_slope_and_classes R C ta te E mask) r c = some 0 ∧
    classAt (compute_slope_and_classes R C ta te E mask) r c = some 0 := by
  have hcond : 2 ≤ R ∧ 2 ≤ C := ⟨hR, hC⟩
  have hgx : grad1 C |ta| (fun j => E r j) c = 0 :=
    grad1_const C _ k _ (fun j => hE r j) c
  have hgy : grad1 R |te| (fun i => E i c) r = 0 :=
    grad1_const R _ k _ (fun i => hE i c) r
  have hd : npDigitize CLASS_BINS 0 = 0 := digitize_bins_eq_zero (by norm_num)
  simp [compute_slope_and_classes, npGradient2D, hcond, slopeAt, classAt, hm,
    hgx, hgy, slopeDegOf_zero_zero, hd]

/-- Witness for C7 at a concrete constant 2x2 grid. -/
theorem flat_grid_slope_and_class_zero_witness :
    (0 : ℚ) < 1 ∧ 2 ≤ 2 ∧ maskAllFalse 1 1 = false ∧
    (slopeAt (compute_slope_and_classes 2 2 1 1 demFlat maskAllFalse) 1 1 = some 0 ∧
     classAt (compute_slope_and_classes 2 2 1 1 demFlat maskAllFalse) 1 1 = some 0) :=
  ⟨by norm_num, by norm_num, rfl,
   flat_grid_slope_and_class_zero 2 2 1 1 demFlat 0 maskAllFalse 1 1
     (fun _ _ => rfl) (by norm_num) (by norm_num) (by norm_num) (by norm_num) rfl⟩

/-- C2: `np.digitize` with bins [5,15,30,45] and `right=False` assigns classes
by right-open binning — class 0 below 5, class 1 on [5,15), class 2 on [15,30),
class 3 on [30,45), class 4 at and above 45; in particular slope exactly 15 is
class 2, exactly 45 is class 4, exactly 5 is class 1. At every unmasked cell
the class grid is exactly this digitization of the slope grid. -/
theorem digitize_right_open_bins (s : ℝ) :
    (s < 5 → npDigitize CLASS_BINS s = 0) ∧
    (5 ≤ s → s < 15 → npDigitize CLASS_BINS s = 1) ∧
    (15 ≤ s → s < 30 → npDigitize CLASS_BINS s = 2) ∧
    (30 ≤ s → s < 45 → npDigitize CLASS_BINS s = 3) ∧
    (45 ≤ s → npDigitize CLASS_BINS s = 4) ∧
    npDigitize CLASS_BINS (15 : ℝ) = 2 ∧
    npDigitize CLASS_BINS (45 : ℝ) = 4 ∧
    npDigitize CLASS_BINS (5 : ℝ) = 1 ∧
    (∀ (R C : ℕ) (ta te : ℚ) (E : ℕ → ℕ → ℚ) (mask : ℕ → ℕ → Bool) (r c : ℕ),
      2 ≤ R → 2 ≤ C → mask r c = false →
      classAt (compute_slope_and_classes R C ta te E mask) r c =
        (slopeAt (compute_slope_and_classes R C ta te E mask) r c).map
          (npDigitize CLASS_BINS)) := by
  refine ⟨digitize_bins_eq_zero, digitize_bins_eq_one, digitize_bins_eq_two,
    digitize_bins_eq_three, digitize_bins_eq_four,
    digitize_bins_eq_two le_rfl (by norm_num),
    digitize_bins_eq_four le_rfl,
    digitize_bins_eq_one le_rfl (by norm_num), ?_⟩
  intro R C ta te E mask r c hR hC hm
  have hcond : 2 ≤ R ∧ 2 ≤ C := ⟨hR, hC⟩
  simp [compute_slope_and_classes, npGradient2D, hcond, slopeAt, classAt, hm]

/-- Witness for C2 at the concrete slope value 20, which falls in class 2. -/
theorem digitize_right_open_bins_witness :
    (15 : ℝ) ≤ 20 ∧ (20 : ℝ) < 30 ∧ npDigitize CLASS_BINS (20 : ℝ) = 2 :=
  ⟨by norm_num, by norm_num,
   (digitize_right_open_bins 20).2.2.1 (by norm_num) (by norm_num)⟩

lemma grad1_ramp (n : ℕ) (h b d : ℚ) (r : ℕ) (hr0 : 0 < r) (hrn : r < n - 1) :
    grad1 n h (fun i => b + d * (i : ℚ)) r = d / h := by
  unfold grad1
  rw [if_neg (by omega), if_neg (by omega)]
  have h1 : (1 : ℕ) ≤ r := hr0
  show (b + d * ((r + 1 : ℕ) : ℚ) - (b + d * ((r - 1 : ℕ) : ℚ))) / (2 * h) = d / h
  rw [Nat.cast_sub h1, Nat.cast_add, Nat.cast_one]
  have hnum : b + d * ((r : ℚ) + 1) - (b + d * ((r : ℚ) - 1)) = 2 * d := by ring
  rw [hnum, mul_div_mul_left d h two_ne_zero]

lemma slopeDeg_mono_abs {g₁ g₂ : ℚ} (h : |g₁| ≤ |g₂|) :
    slopeDegOf 0 g₁ ≤ slopeDegOf 0 g₂ := by
  rw [slopeDegOf_zero_left, slopeDegOf_zero_left]
  have h' : |(g₁ : ℝ)| ≤ |(g₂ : ℝ)| := by
    rw [← Rat.cast_abs, ← Rat.cast_abs]
    exact_mod_cast h
  have harc := Real.arctan_strictMono.monotone h'
  have h180 : Real.arctan |(g₁ : ℝ)| * 180 ≤ Real.arctan |(g₂ : ℝ)| * 180 :=
    mul_le_mul_of_nonneg_right harc (by norm_num)
  exact div_le_div_of_nonneg_right h180 Real.pi_pos.le

/-- C8: for two uniform elevation ramps of the same shape and spacings, if the
second ramp's per-step rise has magnitude at least that of the first, the
computed slope at any interior cell of the second ramp is at least that of the
first (gradients reduce to rise/spacing, and arctangent is monotone). -/
theorem ramp_slope_monotone (R C : ℕ) (ta te b₁ d₁ b₂ d₂ : ℚ) (r c : ℕ)
    (hx : 0 < ta) (hy : 0 < te) (hr0 : 0 < r) (hrR : r < R - 1)
    (hc0 : 0 < c) (hcC : c < C - 1) (hd : |d₁| ≤ |d₂|) :
    ∃ v₁ v₂ : ℝ,
      slopeAt (compute_slope_and_classes R C ta te
        (fun i _ => b₁ + d₁ * (i : ℚ)) maskAllFalse) r c = some v₁ ∧
      slopeAt (compute_slope_and_classes R C ta te
        (fun i _ => b₂ + d₂ * (i : ℚ)) maskAllFalse) r c = some v₂ ∧
      v₁ ≤ v₂ := by
  have hcond : 2 ≤ R ∧ 2 ≤ C := ⟨by omega, by omega⟩
  refine ⟨slopeDegOf 0 (d₁ / |te|), slopeDegOf 0 (d₂ / |te|), ?_, ?_, ?_⟩
  · have hgx : grad1 C |ta| (fun j => b₁ + d₁ * (r : ℚ)) c = 0 :=
      grad1_const C _ (b₁ + d₁ * (r : ℚ)) _ (fun _ => rfl) c
    have hgy : grad1 R |te| (fun i => b₁ + d₁ * (i : ℚ)) r = d₁ / |te| :=
      grad1_ramp R _ b₁ d₁ r hr0 hrR
    simp [compute_slope_and_classes, npGradient2D, hcond, slopeAt, maskAllFalse,
      hgx, hgy]
  · have hgx : grad1 C |ta| (fun j => b₂ + d₂ * (r : ℚ)) c = 0 :=
      grad1_const C _ (b₂ + d₂ * (r : ℚ)) _ (fun _ => rfl) c
    have hgy : grad1 R |te| (fun i => b₂ + d₂ * (i : ℚ)) r = d₂ / |te| :=
      grad1_ramp R _ b₂ d₂ r hr0 hrR
    simp [compute_slope_and_classes, npGradient2D, hcond, slopeAt, maskAllFalse,
      hgx, hgy]
  · apply slopeDeg_mono_abs
    rw [abs_div, abs_div, abs_abs]
    have hte : 0 < |te| := abs_pos.mpr hy.ne'
    exact div_le_div_of_nonneg_right hd hte.le

/-- Witness for C8 at a concrete pair of 3x3 ramps with rises 1 and 2. -/
theorem ramp_slope_monotone_witness :
    (0 : ℚ) < 1 ∧ (0 : ℕ) < 1 ∧ 1 < 3 - 1 ∧ |(1 : ℚ)| ≤ |(2 : ℚ)| ∧
    (∃ v₁ v₂ : ℝ,
      slopeAt (compute_slope_and_classes 3 3 1 1
        (fun i _ => 0 + 1 * (i : ℚ)) maskAllFalse) 1 1 = some v₁ ∧
      slopeAt (compute_slope_and_classes 3 3 1 1
        (fun i _ => 0 + 2 * (i : ℚ)) maskAllFalse) 1 1 = some v₂ ∧
      v₁ ≤ v₂) :=
  ⟨by norm_num, by norm_num, by norm_num, by norm_num,
   ramp_slope_monotone 3 3 1 1 0 1 0 2 1 1 (by norm_num) (by norm_num)
     (by norm_num) (by norm_num) (by norm_num) (by norm_num) (by norm_num)⟩

lemma arctan_deg_ge_45 {g : ℝ} (hg : 1 ≤ g) :
    45 ≤ Real.arctan g * 180 / Real.pi := by
  have h1 : Real.pi / 4 ≤ Real.arctan g := by
    rw [← Real.arctan_one]
    exact Real.arctan_strictMono.monotone hg
  rw [le_div_iff₀ Real.pi_pos]
  linarith

lemma arctan_deg_pos {g : ℝ} (hg : 0 < g) : 0 < Real.arctan g * 180 / Real.pi := by
  have h : 0 < Real.arctan g := by
    rw [← Real.arctan_zero]
    exact Real.arctan_strictMono hg
  exact div_pos (mul_pos h (by norm_num)) Real.pi_pos

lemma slopeDegOf_zero_five : slopeDegOf 0 5 = Real.arctan 5 * 180 / Real.pi := by
  rw [slopeDegOf_zero_left]
  norm_num

lemma slopeDegOf_zero_ten : slopeDegOf 0 10 = Real.arctan 10 * 180 / Real.pi := by
  rw [slopeDegOf_zero_left]
  norm_num

lemma slopeAt_demExample_21 :
    slopeAt (compute_slope_and_classes 3 3 1 1 demExample maskAllFalse) 2 1 =
      some (Real.arctan 10 * 180 / Real.pi) := by
  have hgy : grad1 3 1 (fun i => demExample i 1) 2 = 10 := by
    norm_num [grad1, demExample]
  have hgx : grad1 3 1 (fun j => demExample 2 j) 1 = 0 :=
    grad1_const 3 1 10 _ (fun _ => rfl) 1
  simp [compute_slope_and_classes, npGradient2D, slopeAt, maskAllFalse,
    hgx, hgy, slopeDegOf_zero_ten]

/-- C1 counterexample: on the 3x3 grid `[[0,0,0],[0,0,0],[10,10,10]]` with
spacing (1,1), the bottom-row interior cell (2,1) does NOT get slope 0: the
vertical gradient there is the one-sided difference `(10 - 0) / 1 = 10`, so the
slope is `atan(10)` in degrees (about 84.3), which is nonzero. -/
theorem bottom_row_cell_slope_nonzero :
    slopeAt (compute_slope_and_classes 3 3 1 1 demExample maskAllFalse) 2 1 =
      some (Real.arctan 10 * 180 / Real.pi) ∧
    Real.arctan 10 * 180 / Real.pi ≠ 0 :=
  ⟨slopeAt_demExample_21, (arctan_deg_pos (by norm_num)).ne'⟩

/-- C1 amended: the gradient scheme is as claimed — centered differences over
doubled spacing at interior cells, one-sided differences over the plain spacing
at edge cells — and on the 3x3 example grid cell (0,0) gets slope 0 and
class 0 and cell (1,1) gets `gy = 5`, slope `atan(5)` in degrees (about 78.7),
class 4; but the bottom-row interior cell (2,1) gets slope `atan(10)` in
degrees (about 84.3, from the one-sided difference `(10-0)/1`), not slope 0 as
the spec example states. -/
theorem gradient_scheme_and_example (R C : ℕ) (ys xs : ℚ) (E : ℕ → ℕ → ℚ)
    (r c : ℕ) (hR : 2 ≤ R) (hC : 2 ≤ C) :
    npGradient2D R C ys xs E =
      some (fun r c => grad1 R ys (fun i => E i c) r,
            fun r c => grad1 C xs (fun j => E r j) c) ∧
    (0 < r → r < R - 1 →
      grad1 R ys (fun i => E i c) r = (E (r + 1) c - E (r - 1) c) / (2 * ys)) ∧
    (0 < c → c < C - 1 →
      grad1 C xs (fun j => E r j) c = (E r (c + 1) - E r (c - 1)) / (2 * xs)) ∧
    grad1 R ys (fun i => E i c) 0 = (E 1 c - E 0 c) / ys ∧
    grad1 R ys (fun i => E i c) (R - 1) = (E (R - 1) c - E (R - 2) c) / ys ∧
    grad1 C xs (fun j => E r j) 0 = (E r 1 - E r 0) / xs ∧
    grad1 C xs (fun j => E r j) (C - 1) = (E r (C - 1) - E r (C - 2)) / xs ∧
    (slopeAt (compute_slope_and_classes 3 3 1 1 demExample maskAllFalse) 0 0 =
        some 0 ∧
      classAt (compute_slope_and_classes 3 3 1 1 demExample maskAllFalse) 0 0 =
        some 0) ∧
    (slopeAt (compute_slope_and_classes 3 3 1 1 demExample maskAllFalse) 1 1 =
        some (Real.arctan 5 * 180 / Real.pi) ∧
      classAt (compute_slope_and_classes 3 3 1 1 demExample maskAllFalse) 1 1 =
        some 4) ∧
    slopeAt (compute_slope_and_classes 3 3 1 1 demExample maskAllFalse) 2 1 =
      some (Real.arctan 10 * 180 / Real.pi) := by
  have hcond : 2 ≤ R ∧ 2 ≤ C := ⟨hR, hC⟩
  refine ⟨by simp [npGradient2D, hcond], ?_, ?_, ?_, ?_, ?_, ?_, ?_, ?_,
    slopeAt_demExample_21⟩
  · intro h0 hI
    unfold grad1
    rw [if_neg (by omega), if_neg (by omega)]
  · intro h0 hI
    unfold grad1
    rw [if_neg (by omega), if_neg (by omega)]
  · unfold grad1
    rw [if_pos rfl]
  · unfold grad1
    rw [if_neg (by omega), if_pos rfl]
  · unfold grad1
    rw [if_pos rfl]
  · unfold grad1
    rw [if_neg (by omega), if_pos rfl]
  · have hgy : grad1 3 1 (fun i => demExample i 0) 0 = 0 := by
      norm_num [grad1, demExample]
    have hgx : grad1 3 1 (fun j => demExample 0 j) 0 = 0 :=
      grad1_const 3 1 0 _ (fun _ => rfl) 0
    have hd0 : npDigitize CLASS_BINS 0 = 0 := digitize_bins_eq_zero (by norm_num)
    simp [compute_slope_and_classes, npGradient2D, slopeAt, classAt,
      maskAllFalse, hgx, hgy, slopeDegOf_zero_zero, hd0]
  · have hgy : grad1 3 1 (fun i => demExample i 1) 1 = 5 := by
      norm_num [grad1, demExample]
    have hgx : grad1 3 1 (fun j => demExample 1 j) 1 = 0 :=
      grad1_const 3 1 0 _ (fun _ => rfl) 1
    have hd4 : npDigitize CLASS_BINS (Real.arctan 5 * 180 / Real.pi) = 4 :=
      digitize_bins_eq_four (arctan_deg_ge_45 (by norm_num))
    simp [compute_slope_and_classes, npGradient2D, slopeAt, classAt,
      maskAllFalse, hgx, hgy, slopeDegOf_zero_five, hd4]

/-- Witness for the amended C1 theorem at the concrete 3x3 example, using the
interior cell (1,1). -/
theorem gradient_scheme_and_example_witness :
    2 ≤ 3 ∧ (0 : ℕ) < 1 ∧ 1 < 3 - 1 ∧
    grad1 3 1 (fun i => demExample i 1) 1 =
      (demExample 2 1 - demExample 0 1) / (2 * 1) :=
  ⟨by norm_num, by norm_num, by norm_num,
   ((gradient_scheme_and_example 3 3 1 1 demExample 1 1
      (by norm_num) (by norm_num)).2.1 (by norm_num) (by norm_num))⟩

/-- A mask marking only cell (0,1) as no-data. -/
def maskTopMid : ℕ → ℕ → Bool := fun r c => decide (r = 0 ∧ c = 1)

/-- A grid equal to `demFlat` everywhere except at the masked cell (0,1),
where it stores the raw value 100 (e.g. a no-data sentinel). -/
def demLeaky : ℕ → ℕ → ℚ := fun r c => if r = 0 ∧ c = 1 then 100 else 0

lemma slopeAt_demLeaky_11 :
    slopeAt (compute_slope_and_classes 3 3 1 1 demLeaky maskTopMid) 1 1 =
      some (Real.arctan 50 * 180 / Real.pi) := by
  have hgy : grad1 3 1 (fun i => demLeaky i 1) 1 = -50 := by
    norm_num [grad1, demLeaky]
  have hgx : grad1 3 1 (fun j => demLeaky 1 j) 1 = 0 :=
    grad1_const 3 1 0 _ (fun _ => rfl) 1
  have hs : slopeDegOf 0 (-50) = Real.arctan 50 * 180 / Real.pi := by
    rw [slopeDegOf_zero_left]
    norm_num
  simp [compute_slope_and_classes, npGradient2D, slopeAt, maskTopMid,
    hgx, hgy, hs]

/-- C10: the no-data mask is applied only to the masked output cells, not to
their neighborhoods — the raw elevation stored at a masked cell flows into the
gradients of its valid neighbors. Witness pair: `demFlat` and `demLeaky` agree
at every cell except the masked cell (0,1), yet the slopes they produce at the
adjacent valid cell (1,1) differ (0 versus `atan(50)` in degrees). -/
theorem masked_cell_elevation_leaks :
    (∀ r c : ℕ, (r = 0 ∧ c = 1) ∨ demFlat r c = demLeaky r c) ∧
    maskTopMid 0 1 = true ∧
    maskTopMid 1 1 = false ∧
    slopeAt (compute_slope_and_classes 3 3 1 1 demFlat maskTopMid) 1 1 =
      some 0 ∧
    slopeAt (compute_slope_and_classes 3 3 1 1 demLeaky maskTopMid) 1 1 =
      some (Real.arctan 50 * 180 / Real.pi) ∧
    Real.arctan 50 * 180 / Real.pi ≠ 0 := by
  refine ⟨?_, rfl, rfl, ?_, slopeAt_demLeaky_11, (arctan_deg_pos (by norm_num)).ne'⟩
  · intro r c
    by_cases h : r = 0 ∧ c = 1
    · exact Or.inl h
    · exact Or.inr (by simp [demFlat, demLeaky, h])
  · have hgy : grad1 3 1 (fun i => demFlat i 1) 1 = 0 :=
      grad1_const 3 1 0 _ (fun _ => rfl) 1
    have hgx : grad1 3 1 (fun j => demFlat 1 j) 1 = 0 :=
      grad1_const 3 1 0 _ (fun _ => rfl) 1
    simp [compute_slope_and_classes, npGradient2D, slopeAt, maskTopMid,
      hgx, hgy, slopeDegOf_zero_zero]

end PrepareData
